import Mathlib

/-!
Shallow embedding of the RPC transport core of a Kademlia DHT node
(src/network.rs): the wire types (`Request`, `Response`, `Message`,
`RpcMessage`), the serde_json wire codec for them, the inbound dispatcher
step of `Rpc::open`, `Rpc::send_msg`, and the pending-call machinery of
`Rpc::make_request` / `Rpc::handle_response` together with the timeout
watcher, as a small state machine over an association table and a set of
mpsc channels.

Machine-level conventions of the embedding:
- the external `Key` type (src/key.rs, not part of this layer) is an
  opaque comparable/hashable value, modelled as `Nat`;
- an mpsc channel is a `Slot`: a queue of already-delivered values plus a
  flag recording whether the receiving half is still alive; `send`
  succeeds and enqueues exactly when the receiver is alive (rust mpsc
  channels are unbounded multi-shot channels, not one-shot);
- serde_json byte-level parsing is abstracted to the JSON value level
  (`JsonVal`); a datagram is either non-UTF-8 bytes, UTF-8 text that is
  not JSON, or a parsed JSON value;
- a panic of the rust code (every `.expect` call) is a distinguished
  outcome constructor carrying the expect message.
-/

set_option autoImplicit false

namespace Kademlia

/-- Modelled from the spec: the opaque correlation key type (the external
`Key` of src/key.rs); comparable and hashable, unique with overwhelming
probability. Modelled as a natural number. -/
abbrev Key := Nat

/-- Modelled from the spec: the node descriptor (src/node.rs is external to
this layer) giving a bound address and an identifier. -/
structure Node where
  addr : String
  id : Key
deriving DecidableEq, Repr

/-- Modelled from the spec: the `{node, distance}` pair produced by the
routing collaborator (src/routing.rs is external to this layer). -/
structure NodeAndDistance where
  node : Node
  distance : Key
deriving DecidableEq, Repr

/-- Modelled from the spec: the FindValue answer, either the stored value
or a list of closer nodes mirroring FindNode (src/routing.rs). -/
inductive FindValueResult where
  | Nodes (ns : List NodeAndDistance)
  | Value (v : String)
deriving DecidableEq, Repr

/-- src/network.rs lines 13-19: `enum Request`. -/
inductive Request where
  | Ping
  | Store (k : String) (v : String)
  | FindNode (k : Key)
  | FindValue (k : String)
deriving DecidableEq, Repr

/-- src/network.rs lines 21-26: `enum Response`. -/
inductive Response where
  | Ping
  | FindNode (ns : List NodeAndDistance)
  | FindValue (r : FindValueResult)
deriving DecidableEq, Repr

/-- src/network.rs lines 28-33: `enum Message`. -/
inductive Message where
  | Abort
  | Request (r : Request)
  | Response (r : Response)
deriving DecidableEq, Repr

/-- src/network.rs lines 35-41: `struct RpcMessage` (the envelope). -/
structure RpcMessage where
  token : Key
  src : String
  dst : String
  msg : Message
deriving DecidableEq, Repr

/-- src/network.rs lines 43-48: `struct ReqWrapper`, the record pushed to
the request work queue. -/
structure ReqWrapper where
  token : Key
  src : String
  payload : Request
deriving DecidableEq, Repr

/-- JSON values, the target of the serde_json wire codec, abstracted at the
value level (field order fixed to declaration order, as serde_json emits). -/
inductive JsonVal where
  | str (s : String)
  | num (n : Nat)
  | arr (xs : List JsonVal)
  | obj (fields : List (String × JsonVal))

/-- Wire encoding of a `Key` (opaque number). -/
def encodeKey (k : Key) : JsonVal := .num k

/-- Wire decoding of a `Key`. -/
def decodeKey : JsonVal → Option Key
  | .num n => some n
  | _ => none

/-- Wire encoding of a `Node` descriptor. -/
def encodeNode (n : Node) : JsonVal :=
  .obj [(("addr"), .str n.addr), (("id"), encodeKey n.id)]

/-- Wire decoding of a `Node` descriptor. -/
def decodeNode : JsonVal → Option Node
  | .obj [(("addr"), .str a), (("id"), j)] => (decodeKey j).map (fun k => ⟨a, k⟩)
  | _ => none

/-- Wire encoding of a `NodeAndDistance` pair (serde tuple struct: array). -/
def encodeNAD (nd : NodeAndDistance) : JsonVal :=
  .arr [encodeNode nd.node, encodeKey nd.distance]

/-- Wire decoding of a `NodeAndDistance` pair. -/
def decodeNAD : JsonVal → Option NodeAndDistance
  | .arr [jn, jd] =>
    match decodeNode jn, decodeKey jd with
    | some n, some d => some ⟨n, d⟩
    | _, _ => none
  | _ => none

/-- Wire decoding of a list of `NodeAndDistance` values. -/
def decodeNADList : List JsonVal → Option (List NodeAndDistance)
  | [] => some []
  | j :: rest =>
    match decodeNAD j, decodeNADList rest with
    | some x, some xs => some (x :: xs)
    | _, _ => none

/-- Wire encoding of a `FindValueResult` (serde externally tagged enum). -/
def encodeFVR : FindValueResult → JsonVal
  | .Nodes ns => .obj [(("Nodes"), .arr (ns.map encodeNAD))]
  | .Value v => .obj [(("Value"), .str v)]

/-- Wire decoding of a `FindValueResult`. -/
def decodeFVR : JsonVal → Option FindValueResult
  | .obj [(("Nodes"), .arr js)] => (decodeNADList js).map .Nodes
  | .obj [(("Value"), .str v)] => some (.Value v)
  | _ => none

/-- Wire encoding of a `Request` (serde externally tagged enum). -/
def encodeRequest : Request → JsonVal
  | .Ping => .str ("Ping")
  | .Store k v => .obj [(("Store"), .arr [.str k, .str v])]
  | .FindNode k => .obj [(("FindNode"), encodeKey k)]
  | .FindValue k => .obj [(("FindValue"), .str k)]

/-- Wire decoding of a `Request`. -/
def decodeRequest : JsonVal → Option Request
  | .str ("Ping") => some .Ping
  | .obj [(("Store"), .arr [.str k, .str v])] => some (.Store k v)
  | .obj [(("FindNode"), j)] => (decodeKey j).map .FindNode
  | .obj [(("FindValue"), .str k)] => some (.FindValue k)
  | _ => none

/-- Wire encoding of a `Response` (serde externally tagged enum). -/
def encodeResponse : Response → JsonVal
  | .Ping => .str ("Ping")
  | .FindNode ns => .obj [(("FindNode"), .arr (ns.map encodeNAD))]
  | .FindValue r => .obj [(("FindValue"), encodeFVR r)]

/-- Wire decoding of a `Response`. -/
def decodeResponse : JsonVal → Option Response
  | .str ("Ping") => some .Ping
  | .obj [(("FindNode"), .arr js)] => (decodeNADList js).map .FindNode
  | .obj [(("FindValue"), j)] => (decodeFVR j).map .FindValue
  | _ => none

/-- Wire encoding of a `Message` (serde externally tagged enum). -/
def encodeMessage : Message → JsonVal
  | .Abort => .str ("Abort")
  | .Request r => .obj [(("Request"), encodeRequest r)]
  | .Response r => .obj [(("Response"), encodeResponse r)]

/-- Wire decoding of a `Message`. -/
def decodeMessage : JsonVal → Option Message
  | .str ("Abort") => some .Abort
  | .obj [(("Request"), j)] => (decodeRequest j).map .Request
  | .obj [(("Response"), j)] => (decodeResponse j).map .Response
  | _ => none

/-- Wire encoding of the `RpcMessage` envelope (serde struct: object with
fields in declaration order, src/network.rs lines 35-41). -/
def encodeRpcMessage (m : RpcMessage) : JsonVal :=
  .obj [(("token"), encodeKey m.token), (("src"), .str m.src),
        (("dst"), .str m.dst), (("msg"), encodeMessage m.msg)]

/-- Wire decoding of the `RpcMessage` envelope. -/
def decodeRpcMessage : JsonVal → Option RpcMessage
  | .obj [(("token"), jt), (("src"), .str s), (("dst"), .str d), (("msg"), jm)] =>
    match decodeKey jt, decodeMessage jm with
    | some t, some m => some ⟨t, s, d, m⟩
    | _, _ => none
  | _ => none

/-- An inbound datagram as seen by `Rpc::open` after `recv_from`
(src/network.rs lines 73-84): either bytes that are not valid UTF-8
(the first `expect`, line 79), UTF-8 text that does not parse as JSON
(part of the second `expect`, line 83), or a parsed JSON value that
`serde_json::from_str` then tries to decode as an `RpcMessage`. -/
inductive Datagram where
  | badUtf8
  | badJson
  | json (j : JsonVal)

/-- The outcome of one iteration of the dispatcher loop of `Rpc::open`
(src/network.rs lines 72-120). `panicked` is a rust panic from an
`expect`; `dropMisrouted` is the warn-and-continue of lines 95-98;
`abortLoop` is the `break` of line 102; `queued` is the successful push
of a `ReqWrapper` to the work queue (lines 104-114); `consumerDead` is
the break when the work-queue receiver is gone (lines 111-114);
`response` is the hand-off to `handle_response` (lines 116-118). -/
inductive StepOutcome where
  | panicked (msg : String)
  | dropMisrouted
  | abortLoop
  | queued (w : ReqWrapper)
  | consumerDead
  | response (token : Key) (res : Response)
deriving DecidableEq, Repr

/-- Whether the dispatcher loop proceeds to its next iteration after the
given outcome: `continue` on a misrouted drop, loop again after queueing a
request or spawning a response handler; the loop ends on `break` (Abort,
dead work-queue consumer) and on a panic (the thread dies). -/
def StepOutcome.loopContinues : StepOutcome → Bool
  | .panicked _ => false
  | .dropMisrouted => true
  | .abortLoop => false
  | .queued _ => true
  | .consumerDead => false
  | .response _ _ => true

/-- One iteration of the dispatcher loop of `Rpc::open`
(src/network.rs lines 72-120), embedded as a pure function of the node
address (`rpc.node.get_addr()`), whether the work-queue consumer is alive
(`sender.send(..).is_err()` at line 111), the inbound datagram, and the
transport-reported source address (`src_addr` from `recv_from`). -/
def openStep (nodeAddr : String) (consumerAlive : Bool)
    (d : Datagram) (srcAddr : String) : StepOutcome :=
  match d with
  | .badUtf8 =>
    .panicked ("[FAILED] Rpc::open --> Unable to parse string from received bytes")
  | .badJson =>
    .panicked ("[FAILED] Rpc::open, serde_json --> Unable to decode string payload")
  | .json j =>
    match decodeRpcMessage j with
    | none =>
      .panicked ("[FAILED] Rpc::open, serde_json --> Unable to decode string payload")
    | some decoded0 =>
      let decoded := { decoded0 with src := srcAddr }
      if decoded.dst ≠ nodeAddr then .dropMisrouted
      else
        match decoded.msg with
        | .Abort => .abortLoop
        | .Request req =>
          if consumerAlive then .queued ⟨decoded.token, decoded.src, req⟩
          else .consumerDead
        | .Response res => .response decoded.token res

/-- The outcome of `Rpc::send_msg` (src/network.rs lines 124-130): either
the encoded envelope went out on the socket, or `send_to` failed and the
`expect` at line 129 panicked the calling thread. -/
inductive SendOutcome where
  | sent (payload : JsonVal)
  | panicked (msg : String)

/-- Whether a `SendOutcome` is a rust panic. -/
def SendOutcome.isPanic : SendOutcome → Bool
  | .panicked _ => true
  | _ => false

/-- `Rpc::send_msg` (src/network.rs lines 124-130), parameterised by
whether `socket.send_to` succeeds (an external transport condition).
`serde_json::to_string` cannot fail on these derived types, so encoding is
total. -/
def sendMsg (sendOk : Bool) (msg : RpcMessage) : SendOutcome :=
  if sendOk then .sent (encodeRpcMessage msg)
  else .panicked ("[FAILED] Rpc::send_msg --> Error while sending message to specified address")

/-- An mpsc channel as used for pending calls: the queue of values already
delivered into it, and whether the receiving half is still alive. A rust
mpsc `send` succeeds (and enqueues) exactly when the receiver is alive;
it is a multi-shot channel, not a one-shot slot. -/
structure Slot where
  buf : List (Option Response)
  recvAlive : Bool
deriving DecidableEq, Repr

/-- The shared state of one `Rpc` node relevant to pending calls:
`pending` embeds the `HashMap<Key, mpsc::Sender<Option<Response>>>`
(src/network.rs line 53) as an association list from token to channel
index, and `slots` holds every channel ever created, indexed by position. -/
structure NetState where
  pending : List (Key × Nat)
  slots : List Slot
deriving DecidableEq, Repr

/-- `HashMap::get`: first binding of the key, if any. -/
def mapLookup : List (Key × Nat) → Key → Option Nat
  | [], _ => none
  | (k, v) :: rest, t => if k = t then some v else mapLookup rest t

/-- `HashMap::insert`: replace the binding of the key, or append it. -/
def mapInsert : List (Key × Nat) → Key → Nat → List (Key × Nat)
  | [], t, v => [(t, v)]
  | (k, w) :: rest, t, v =>
    if k = t then (t, v) :: rest else (k, w) :: mapInsert rest t v

/-- `HashMap::remove`: drop every binding of the key. -/
def mapErase : List (Key × Nat) → Key → List (Key × Nat)
  | [], _ => []
  | (k, w) :: rest, t =>
    if k = t then mapErase rest t else (k, w) :: mapErase rest t

/-- `mpsc::Sender::send` into channel `cid`: enqueue the value and report
`Ok` when the receiver is alive, else leave the state unchanged and report
`Err`. -/
def sendTo (st : NetState) (cid : Nat) (v : Option Response) : NetState × Bool :=
  match st.slots.get? cid with
  | none => (st, false)
  | some s =>
    if s.recvAlive then
      ({ st with slots := st.slots.set cid { s with buf := s.buf ++ [v] } }, true)
    else (st, false)

/-- The caller drops the receiver returned by `make_request` without
waiting on it: the receiving half of channel `cid` dies. -/
def dropReceiver (st : NetState) (cid : Nat) : NetState :=
  match st.slots.get? cid with
  | none => st
  | some s => { st with slots := st.slots.set cid { s with recvAlive := false } }

/-- The registration part of `Rpc::make_request` (src/network.rs lines
155-177): create a fresh channel, insert `token -> sender clone` into the
pending table (line 168), and return the channel index (the receiver half
handed back to the caller at line 191). The generated token is passed in
as a parameter, since the source derives it from a `SystemTime` reading
(lines 162-167), an external nondeterministic input. -/
def makeRequest (st : NetState) (tok : Key) : NetState × Nat :=
  (⟨mapInsert st.pending tok st.slots.length, st.slots ++ [⟨[], true⟩]⟩,
   st.slots.length)

/-- What `Rpc::handle_response` did on a given invocation. -/
inductive HrOutcome where
  | delivered
  | deliveryFailed
  | unsolicited
deriving DecidableEq, Repr

/-- `Rpc::handle_response` (src/network.rs lines 132-153), the body of the
spawned thread, which runs holding the pending-table lock throughout:
look the token up; if absent, warn about an unsolicited response and
return with no state change; if present, send `Some(res)` into the
channel and, only when that send returned `Ok`, remove the entry. -/
def handleResponse (st : NetState) (tok : Key) (res : Response) :
    NetState × HrOutcome :=
  match mapLookup st.pending tok with
  | none => (st, .unsolicited)
  | some cid =>
    let p := sendTo st cid (some res)
    if p.2 then ({ p.1 with pending := mapErase p.1.pending tok }, .delivered)
    else (p.1, .deliveryFailed)

/-- The send half of the timeout watcher spawned by `make_request`
(src/network.rs lines 180-189): after the sleep, `sender.send(None)`.
This happens outside the pending-table lock. -/
def timeoutSend (st : NetState) (cid : Nat) : NetState × Bool :=
  sendTo st cid none

/-- The cleanup half of the timeout watcher (src/network.rs lines
182-188): only when its `send(None)` returned `Ok` does it lock the table
and remove the token. -/
def timeoutCleanup (st : NetState) (tok : Key) (ok : Bool) : NetState :=
  if ok then { st with pending := mapErase st.pending tok } else st

/-- The timeout watcher running to completion without interleaving:
`send(None)` then conditional removal. -/
def timeoutFire (st : NetState) (tok : Key) (cid : Nat) : NetState :=
  let p := timeoutSend st cid
  timeoutCleanup p.1 tok p.2

/-- The queue of values the receiver of channel `cid` can observe. -/
def bufOf (st : NetState) (cid : Nat) : List (Option Response) :=
  ((st.slots.get? cid).map Slot.buf).getD []

/-- The state after one `make_request` with token `t` on a fresh node:
one pending entry `t -> 0` and one open channel. -/
def callState (t : Key) : NetState := (makeRequest ⟨[], []⟩ t).1

/-- Interleaving A of the response/timeout race on a single call: the
response is delivered first (under the lock), then the watcher sends
`None` and runs its cleanup. -/
def runRespThenTimeout (t : Key) (r : Response) : NetState :=
  let st1 := (handleResponse (callState t) t r).1
  let p := timeoutSend st1 0
  timeoutCleanup p.1 t p.2

/-- Interleaving B: the watcher sends `None` first (it sends outside the
lock), the completer then runs in full, and the watcher finishes its
cleanup last. -/
def runTimeoutSendThenResp (t : Key) (r : Response) : NetState :=
  let p := timeoutSend (callState t) 0
  let st2 := (handleResponse p.1 t r).1
  timeoutCleanup st2 t p.2

/-- Interleaving C: the watcher runs to completion (send and removal)
before the response arrives. -/
def runTimeoutThenResp (t : Key) (r : Response) : NetState :=
  (handleResponse (timeoutFire (callState t) t 0) t r).1

/-- A call whose caller drops the receiver without waiting, followed by
the timeout watcher firing. -/
def leakRun (t : Key) : NetState :=
  timeoutFire (dropReceiver (callState t) 0) t 0

/-- Two `make_request` calls whose generated tokens collide: channels 0
and 1 both open, the table binding of `t` pointing at channel 1. -/
def collideState (t : Key) : NetState := (makeRequest (callState t) t).1

/-! Helper lemmas about the embedded map and channel operations. -/

theorem lookup_mapErase (l : List (Key × Nat)) (t : Key) :
    mapLookup (mapErase l t) t = none := by
  induction l with
  | nil => rfl
  | cons p rest ih =>
    obtain ⟨k, v⟩ := p
    by_cases h : k = t <;> simp [mapErase, mapLookup, h, ih]

theorem get_concat (l : List Slot) (s : Slot) :
    (l ++ [s]).get? l.length = some s := by
  induction l with
  | nil => rfl
  | cons a rest ih => simp [List.get?, ih]

theorem set_concat (l : List Slot) (s s2 : Slot) :
    (l ++ [s]).set l.length s2 = l ++ [s2] := by
  induction l with
  | nil => rfl
  | cons a rest ih => simp [List.set, ih]

/-! Round-trip lemmas for the wire codec. -/

theorem decodeNode_encodeNode (n : Node) :
    decodeNode (encodeNode n) = some n := rfl

theorem decodeNAD_encodeNAD (nd : NodeAndDistance) :
    decodeNAD (encodeNAD nd) = some nd := rfl

theorem decodeNADList_map (l : List NodeAndDistance) :
    decodeNADList (l.map encodeNAD) = some l := by
  induction l with
  | nil => rfl
  | cons x xs ih => simp [List.map, decodeNADList, decodeNAD_encodeNAD, ih]

theorem decodeFVR_encodeFVR (r : FindValueResult) :
    decodeFVR (encodeFVR r) = some r := by
  cases r with
  | Nodes ns => simp [encodeFVR, decodeFVR, decodeNADList_map]
  | Value v => rfl

theorem decodeRequest_encodeRequest (r : Request) :
    decodeRequest (encodeRequest r) = some r := by
  cases r <;> rfl

theorem decodeResponse_encodeResponse (r : Response) :
    decodeResponse (encodeResponse r) = some r := by
  cases r with
  | Ping => rfl
  | FindNode ns => simp [encodeResponse, decodeResponse, decodeNADList_map]
  | FindValue fr => simp [encodeResponse, decodeResponse, decodeFVR_encodeFVR]

theorem decodeMessage_encodeMessage (m : Message) :
    decodeMessage (encodeMessage m) = some m := by
  cases m with
  | Abort => rfl
  | Request r => simp [encodeMessage, decodeMessage, decodeRequest_encodeRequest]
  | Response r => simp [encodeMessage, decodeMessage, decodeResponse_encodeResponse]

/-- Claim C6: for every constructible envelope value (an `RpcMessage` with
any token, addresses, and any `Message`/`Request`/`Response` body),
decoding its wire encoding yields the original value. -/
theorem c6_roundtrip (m : RpcMessage) :
    decodeRpcMessage (encodeRpcMessage m) = some m := by
  cases m with
  | mk t s d msg =>
    simp [encodeRpcMessage, decodeRpcMessage, decodeKey, encodeKey,
      decodeMessage_encodeMessage]

/-- Claim C1, counterexample: on a single call with token 0, in the
interleaving where the timeout watcher performs its `send(None)` (which
happens outside the pending-table lock) before `handle_response` runs,
the receiver ends up with TWO queued values, `[None, Some(Ping)]` — the
rust mpsc channel is multi-shot, so the second delivery also succeeds
while the receiver is alive. The claim states the receiver yields exactly
one value; here it yields two. -/
theorem c1_counterexample :
    bufOf (runTimeoutSendThenResp 0 .Ping) 0 = [none, some .Ping]
    ∧ (bufOf (runTimeoutSendThenResp 0 .Ping) 0).length ≠ 1 :=
  ⟨rfl, by decide⟩

/-- Claim C1 (amended): across the three possible interleavings of an
atomic `handle_response` (it holds the table lock throughout), the
watcher `send(None)` (outside the lock) and the watcher cleanup, the open
receiver always gets at least one value and the table entry is always
removed; but whenever the response delivery finds the token still
registered, the timeout also enqueues `None` (before or after it), so the
receiver gets two values; only when the watcher completes send and
removal first does the receiver get exactly one value, `None`. -/
theorem c1_delivery_interleavings (t : Key) (r : Response) :
    bufOf (runRespThenTimeout t r) 0 = [some r, none]
    ∧ bufOf (runTimeoutSendThenResp t r) 0 = [none, some r]
    ∧ bufOf (runTimeoutThenResp t r) 0 = [none]
    ∧ mapLookup (runRespThenTimeout t r).pending t = none
    ∧ mapLookup (runTimeoutSendThenResp t r).pending t = none
    ∧ mapLookup (runTimeoutThenResp t r).pending t = none := by
  refine ⟨?_, ?_, ?_, ?_, ?_, ?_⟩ <;>
    simp [runRespThenTimeout, runTimeoutSendThenResp, runTimeoutThenResp,
      callState, makeRequest, handleResponse, timeoutSend, timeoutCleanup,
      timeoutFire, sendTo, bufOf, mapLookup, mapInsert, mapErase, List.get?]

/-- Claim C2: the claim (and the spec) say a datagram that fails to decode
is logged and the loop continues; the code instead calls `.expect` on both
`str::from_utf8` and `serde_json::from_str` (src/network.rs lines 78-84),
so a malformed datagram from a peer panics and kills the dispatcher
thread. Evaluated here on two failing inputs: non-UTF-8 bytes, and the
valid JSON value `0` which is not an `RpcMessage`. -/
theorem c2_decode_failure_panics :
    openStep ("127.0.0.1:8080") true .badUtf8 ("127.0.0.1:9999")
      = .panicked ("[FAILED] Rpc::open --> Unable to parse string from received bytes")
    ∧ openStep ("127.0.0.1:8080") true (.json (.num 0)) ("127.0.0.1:9999")
      = .panicked ("[FAILED] Rpc::open, serde_json --> Unable to decode string payload")
    ∧ (openStep ("127.0.0.1:8080") true .badUtf8 ("127.0.0.1:9999")).loopContinues = false
    ∧ (openStep ("127.0.0.1:8080") true (.json (.num 0)) ("127.0.0.1:9999")).loopContinues
        = false :=
  ⟨rfl, rfl, rfl, rfl⟩

/-- Claim C3, counterexample: a call with token 7 whose caller drops the
receiver without waiting. When the timeout fires, `sender.send(None)`
returns `Err` (receiver gone), so the watcher skips the removal
(src/network.rs line 182: removal only under `is_ok()`), and the table
still contains the entry afterwards — it is never removed. -/
theorem c3_counterexample :
    mapLookup (leakRun 7).pending 7 = some 0
    ∧ mapLookup (leakRun 7).pending 7 ≠ none :=
  ⟨rfl, by decide⟩

/-- Claim C3 (amended): a pending entry is removed at most once, by
whichever side first delivers successfully (shown here for the watcher on
an open receiver); but when the caller drops the receiver before any
delivery, both the response path and the timeout path see a failed send
and skip removal, so the entry stays in the table indefinitely — it
leaks. -/
theorem c3_entry_removal (t : Key) :
    mapLookup (leakRun t).pending t = some 0
    ∧ bufOf (leakRun t) 0 = []
    ∧ mapLookup (timeoutFire (callState t) t 0).pending t = none
    ∧ mapLookup ((handleResponse (dropReceiver (callState t) 0) t .Ping).1).pending t
        = some 0 := by
  refine ⟨?_, ?_, ?_, ?_⟩ <;>
    simp [leakRun, callState, makeRequest, handleResponse, dropReceiver,
      timeoutSend, timeoutCleanup, timeoutFire, sendTo, bufOf, mapLookup,
      mapInsert, mapErase, List.get?]

/-- Claim C4: starting from any node state, for a call registered by
`make_request` whose token receives no response before the timeout fires
(and whose caller is waiting on the receiver), the watcher delivers
`None` — the receiver resolves to exactly `[None]` — and afterwards the
pending table no longer contains the token. -/
theorem c4_timeout_fidelity (st : NetState) (t : Key) :
    mapLookup (timeoutFire (makeRequest st t).1 t (makeRequest st t).2).pending t = none
    ∧ bufOf (timeoutFire (makeRequest st t).1 t (makeRequest st t).2)
        (makeRequest st t).2 = [none] := by
  simp [makeRequest, timeoutFire, timeoutSend, timeoutCleanup, sendTo, bufOf,
    get_concat, set_concat, lookup_mapErase]

/-- Claim C5, counterexample: when `socket.send_to` fails, `send_msg`
panics through its `.expect` (src/network.rs line 129); no recoverable
error value is returned to the caller — the embedded outcome is a panic. -/
theorem c5_counterexample :
    sendMsg false ⟨0, ("a"), ("b"), .Abort⟩
      = .panicked ("[FAILED] Rpc::send_msg --> Error while sending message to specified address")
    ∧ (sendMsg false ⟨0, ("a"), ("b"), .Abort⟩).isPanic = true :=
  ⟨rfl, rfl⟩

/-- Claim C5 (amended): a send failure surfaces synchronously in the
calling thread — distinct from a timeout outcome — but as a panic of that
thread, not as a recoverable error value; on success the encoded envelope
is sent. -/
theorem c5_send_failure_panics (m : RpcMessage) :
    sendMsg true m = .sent (encodeRpcMessage m)
    ∧ sendMsg false m
      = .panicked ("[FAILED] Rpc::send_msg --> Error while sending message to specified address") :=
  ⟨rfl, rfl⟩

/-- Claim C7: for every received datagram that the dispatcher turns into a
work-queue entry, the source address in the `ReqWrapper` is the
transport-reported origin address (`src_addr` from `recv_from`), never the
peer-embedded value — the overwrite at src/network.rs line 86 happens
before any dispatch decision. -/
theorem c7_src_overwrite (nodeAddr srcAddr : String) (alive : Bool) (j : JsonVal)
    (w : ReqWrapper) (h : openStep nodeAddr alive (.json j) srcAddr = .queued w) :
    w.src = srcAddr := by
  unfold openStep at h
  split at h
  · exact absurd h (by simp)
  · exact absurd h (by simp)
  next j2 heq =>
    split at h
    · exact absurd h (by simp)
    next m =>
      dsimp only at h
      split at h
      · exact absurd h (by simp)
      · split at h
        · exact absurd h (by simp)
        · split at h
          · cases h
            rfl
          · exact absurd h (by simp)
        · exact absurd h (by simp)

/-- Witness for C7: a request envelope whose embedded source lies
(`liar`) arrives from transport origin `real`; the queued wrapper carries
`real`. -/
theorem c7_witness :
    openStep ("node") true
      (.json (encodeRpcMessage ⟨3, ("liar"), ("node"), .Request .Ping⟩)) ("real")
      = .queued ⟨3, ("real"), .Ping⟩
    ∧ (ReqWrapper.mk 3 ("real") .Ping).src = ("real") :=
  ⟨rfl, c7_src_overwrite ("node") ("real") true
    (encodeRpcMessage ⟨3, ("liar"), ("node"), .Request .Ping⟩)
    ⟨3, ("real"), .Ping⟩ rfl⟩

/-- Claim C8: every received envelope whose destination address differs
from the receiving node address is discarded with a warning
(src/network.rs lines 95-98) and the loop continues; being
`dropMisrouted`, the outcome is in particular not a queued request, not a
response hand-off, and not an abort. -/
theorem c8_misrouted_dropped (nodeAddr srcAddr : String) (alive : Bool)
    (j : JsonVal) (m : RpcMessage) (hdec : decodeRpcMessage j = some m)
    (hdst : m.dst ≠ nodeAddr) :
    openStep nodeAddr alive (.json j) srcAddr = .dropMisrouted
    ∧ (openStep nodeAddr alive (.json j) srcAddr).loopContinues = true := by
  have h1 : openStep nodeAddr alive (.json j) srcAddr = .dropMisrouted := by
    simp only [openStep, hdec]
    simp [hdst]
  exact ⟨h1, by rw [h1]; rfl⟩

/-- Witness for C8: an envelope addressed to `other` arriving at node
`me` is dropped as misrouted. -/
theorem c8_witness :
    decodeRpcMessage (encodeRpcMessage ⟨1, ("s"), ("other"), .Abort⟩)
      = some ⟨1, ("s"), ("other"), .Abort⟩
    ∧ (RpcMessage.mk 1 ("s") ("other") .Abort).dst ≠ ("me")
    ∧ openStep ("me") true
        (.json (encodeRpcMessage ⟨1, ("s"), ("other"), .Abort⟩)) ("p")
        = .dropMisrouted :=
  ⟨rfl, by decide,
   (c8_misrouted_dropped ("me") ("p") true
     (encodeRpcMessage ⟨1, ("s"), ("other"), .Abort⟩)
     ⟨1, ("s"), ("other"), .Abort⟩ rfl (by decide)).1⟩

/-- Claim C9: invoking `handle_response` with a token not present in the
pending table (never registered, or already resolved and removed) returns
after the unsolicited-response warning with the state completely
unchanged — no table mutation, no channel touched, no error raised. -/
theorem c9_unsolicited_no_change (st : NetState) (t : Key) (r : Response)
    (h : mapLookup st.pending t = none) :
    handleResponse st t r = (st, .unsolicited) := by
  unfold handleResponse
  rw [h]

/-- Witness for C9: a response bearing token 4 arrives while only token 3
is registered; the state is untouched and the outcome is the warning. -/
theorem c9_witness :
    mapLookup (NetState.mk [(3, 0)] [⟨[some .Ping], true⟩]).pending 4 = none
    ∧ handleResponse ⟨[(3, 0)], [⟨[some .Ping], true⟩]⟩ 4 .Ping
      = (⟨[(3, 0)], [⟨[some .Ping], true⟩]⟩, .unsolicited) :=
  ⟨rfl, c9_unsolicited_no_change _ 4 .Ping rfl⟩

/-- Claim C10, counterexample: two calls collide on token 0 (channels 0
and 1; the insert of the second call replaced the binding). The earlier
call timeout then fires: its `send(None)` succeeds, so it removes the
token from the table — taking the LATER call entry with it. A response
bearing the token arriving after that is unsolicited and is NOT delivered
to the later caller (its buffer stays empty), contradicting the claim
that any response bearing the token is thereafter delivered to the later
caller. -/
theorem c10_counterexample :
    (handleResponse (timeoutFire (collideState 0) 0 0) 0 .Ping).2 = .unsolicited
    ∧ bufOf (handleResponse (timeoutFire (collideState 0) 0 0) 0 .Ping).1 1 = [] :=
  ⟨rfl, rfl⟩

/-- Claim C10 (amended): on a token collision the insert silently replaces
the earlier call binding, so while the entry lasts a response bearing the
token is delivered to the later caller (channel 1) and the earlier caller
(channel 0) gets nothing from it, resolving only through its own timeout
`None`; but once the earlier call timeout fires, its successful `None`
delivery removes the shared entry, after which responses bearing the
token are unsolicited and reach neither caller. -/
theorem c10_collision_behavior (t : Key) (r : Response) :
    mapLookup (collideState t).pending t = some 1
    ∧ (handleResponse (collideState t) t r).2 = .delivered
    ∧ bufOf (handleResponse (collideState t) t r).1 1 = [some r]
    ∧ bufOf (handleResponse (collideState t) t r).1 0 = []
    ∧ bufOf (timeoutFire (collideState t) t 0) 0 = [none]
    ∧ mapLookup (timeoutFire (collideState t) t 0).pending t = none
    ∧ (handleResponse (timeoutFire (collideState t) t 0) t r).2 = .unsolicited := by
  refine ⟨?_, ?_, ?_, ?_, ?_, ?_, ?_⟩ <;>
    simp [collideState, callState, makeRequest, handleResponse, timeoutSend,
      timeoutCleanup, timeoutFire, sendTo, bufOf, mapLookup, mapInsert,
      mapErase, List.get?]

end Kademlia
